import Mathlib

/-!
Shallow embedding of the `log` package (a leveled logging library with a
rotating file sink), translated function-by-function from the Go source:

* `msg.go`    — `Level`, `Level.String`, `Msg` and its `Print*` formatters;
* `sink.go`   — `StdOutSink.Log`, `StdErrSink.Log` (level filtering);
* `file.go`   — `FileSink`: construction validation, session separator,
                `Log`, `roll`, `Close`;
* the logger  — `Logger.Fatal*` / package-level `Fatal*` control flow,
                the level gate shared by every entry point, and `DebugFunc`.

Modelling conventions:
* Go `int64` is modelled as `Int`; the only arithmetic that could overflow
  in the source (`keep+keep`) is guarded by the `math.MaxInt64/2 < keep`
  check, which is modelled explicitly, so `Int` is faithful on the
  `int64`-ranged inputs.
* Go `uint8` (`Level`) is modelled as `Nat` with bitwise `&&&` / `|||`;
  every canonical value is below 256 so `Nat` bitwise operations agree
  with the `uint8` ones.
* A file's byte content is a `List Char` (one `Char` per byte; every byte
  the library itself emits is ASCII).
* I/O effects that cannot fail in the modelled success path (`Sync`,
  opening the read handle, `defer in.Close()`) are elided; operations the
  source turns into a panic on failure (the seeks/copy inside `roll`)
  make the model return `none`.
-/

namespace LogModel

/-! ### Levels (msg.go) -/

/-- DEBUG = 1 << 0. -/
def DEBUG : Nat := 1
/-- NORMAL = 1 << 1. -/
def NORMAL : Nat := 2
/-- WARNING = 1 << 2. -/
def WARNING : Nat := 4
/-- ERROR = 1 << 3. -/
def ERROR : Nat := 8
/-- PANIC = 1 << 4. -/
def PANIC : Nat := 16
/-- FATAL = 1 << 5. -/
def FATAL : Nat := 32
/-- ALL is the union of the six level bits. -/
def ALL : Nat := DEBUG ||| NORMAL ||| WARNING ||| ERROR ||| PANIC ||| FATAL

/-- Level.String from msg.go: a switch on the six canonical values with a
default of "[?????]". -/
def levelString (lvl : Nat) : String :=
  if lvl = DEBUG then "[DEBUG]"
  else if lvl = NORMAL then "[_____]"
  else if lvl = WARNING then "[WARN!]"
  else if lvl = ERROR then "[ERROR]"
  else if lvl = PANIC then "[PANIC]"
  else if lvl = FATAL then "[FATAL]"
  else "[?????]"

/-! ### Msg and the formatters (msg.go) -/

/-- The components of a Go `time.Time` that the formatters read
(`Date()`, `Clock()`, `Nanosecond()`). -/
structure GoTime where
  year : Nat
  month : Nat
  day : Nat
  hour : Nat
  minute : Nat
  sec : Nat
  nano : Nat
deriving DecidableEq

/-- A log message (struct Msg in msg.go). -/
structure Msg where
  level : Nat
  time : GoTime
  file : String
  line : Int
  body : String
deriving DecidableEq

/-- Zero-pad a number to `w` digits, as Go's `%0wd` does for
non-negative arguments. -/
def padZero (w : Nat) (n : Nat) : String :=
  String.mk (List.replicate (w - (toString n).length) '0') ++ toString n

/-- Msg.PrintDate: "%04d-%02d-%02d" applied to year, month, day. -/
def printDate (t : GoTime) : String :=
  padZero 4 t.year ++ "-" ++ padZero 2 t.month ++ "-" ++ padZero 2 t.day

/-- Msg.PrintTime: "%02d:%02d:%02d.%06d" applied to hour, minute, second
and microseconds (nanoseconds divided by 1000). -/
def printTime (t : GoTime) : String :=
  padZero 2 t.hour ++ ":" ++ padZero 2 t.minute ++ ":" ++ padZero 2 t.sec
    ++ "." ++ padZero 6 (t.nano / 1000)

/-- Msg.PrintFileLine: "%s:%d" applied to the file and line. -/
def printFileLine (m : Msg) : String :=
  m.file ++ ":" ++ toString m.line

/-- Msg.PrintMsg: an empty body writes nothing; a non-empty body whose
final byte is not a newline is written via Fprintln (one newline
appended); otherwise the body is written verbatim via Fprint.  The Go
code tests `m.Body[len(m.Body)-1] != a newline byte`; on the `List Char`
view of the bytes that is the `getLast?` test below. -/
def printMsg (body : String) : String :=
  if body.data = [] then ""
  else if body.data.getLast? ≠ some '\n' then body ++ "\n"
  else body

/-- The full formatted record, as each sink's `Log` assembles it in its
scratch buffer: date, time, level tag, file:line and body, separated by
single spaces (sink.go / file.go). -/
def formatRecord (m : Msg) : String :=
  printDate m.time ++ " " ++ printTime m.time ++ " " ++ levelString m.level
    ++ " " ++ printFileLine m ++ " " ++ printMsg m.body

/-! ### StdOutSink and StdErrSink (sink.go)

Each `Log` either returns without writing (the level filter) or writes
the formatted record to its device; the result is `none` when the record
is dropped and `some` of the written bytes otherwise. -/

/-- StdOutSink.Log: drops the record when its level intersects
WARNING|ERROR|PANIC|FATAL, otherwise writes the formatted record. -/
def stdOutSinkLog (m : Msg) : Option String :=
  if m.level &&& (WARNING ||| ERROR ||| PANIC ||| FATAL) > 0 then none
  else some (formatRecord m)

/-- StdErrSink.Log: drops the record when its level intersects
DEBUG|NORMAL, otherwise writes the formatted record. -/
def stdErrSinkLog (m : Msg) : Option String :=
  if m.level &&& (DEBUG ||| NORMAL) > 0 then none
  else some (formatRecord m)

/-! ### FileSink (file.go)

The sink's mutable state; the `path` field only threads through to the
filesystem operations (which the model applies to an explicit file
content), and the scratch buffer `buf` is reset at the end of every
`Log` call, so neither is part of the state.  `out` records whether the
write handle is still open (`file.out != nil`). -/

structure FileSink where
  max : Int
  keep : Int
  size : Int
  out : Bool
deriving DecidableEq

/-- math.MaxInt64. -/
def maxInt64 : Int := 9223372036854775807

/-- The parameter checks at the top of NewFileSink, in source order;
`some` is the error returned, `none` means validation passed. -/
def newFileSinkValidate (max keep : Int) : Option String :=
  if keep < 0 then some "keep must be greater than zero"
  else if max < 0 then some "max must be greater than zero"
  else if maxInt64 / 2 < keep then some "keep is too large"
  else if keep + keep > max then some "keep must less than or equal to half max"
  else none

/-- The 80-character session separator line plus its newline, written by
NewFileSink after opening the file. -/
def separator : List Char := List.replicate 80 '=' ++ ['\n']

/-- NewFileSink applied to the state of the filesystem at the target
path (`none` when no file exists there, `some` its content otherwise).
Returns the construction result and the file content afterwards.  On a
validation error the function returns before any filesystem access, so
the content is returned unchanged.  Otherwise the file is opened
O_CREATE|O_WRONLY (created empty when absent, existing content kept),
the handle seeks to end-of-file recording the length as `size`, and the
separator is appended with its byte count added to `size`. -/
def newFileSinkFS (fs : Option (List Char)) (max keep : Int) :
    Except String FileSink × Option (List Char) :=
  match newFileSinkValidate max keep with
  | some e => (Except.error e, fs)
  | none =>
      let content := fs.getD []
      let content1 := content ++ separator
      (Except.ok
        { max := max, keep := keep,
          size := (content.length : Int) + (separator.length : Int),
          out := true },
       some content1)

/-- The error os.ErrInvalid renders as; (*os.File).Close returns it when
the receiver is nil. -/
def errInvalid : String := "invalid argument"

/-- FileSink.Close: saves `file.out`, sets it to nil, and returns the
saved handle's Close() result — `none` for a successful close of an open
handle, os.ErrInvalid when the handle was already nil (second close). -/
def fileSinkClose (sink : FileSink) : FileSink × Option String :=
  ({ sink with out := false }, if sink.out then none else some errInvalid)

/-- FileSink.roll: sync the write handle, open a read handle, seek it to
`keep` bytes before end-of-file, seek the write handle to offset 0, copy
`keep` bytes, sync, truncate the file to `keep` bytes, and set `size` to
`keep`.  Every failing step panics in the source; the model returns
`none` exactly on those panics (a seek to a negative offset when
`keep` exceeds the file length, or a short/negative CopyN when
`keep < 0`).  Writing the copied tail at offset 0 over a file `c` yields
`tail ++ c.drop keep`, and the truncation keeps its first `keep`
bytes. -/
def roll (sink : FileSink) (content : List Char) :
    Option (FileSink × List Char) :=
  if sink.keep < 0 ∨ (content.length : Int) < sink.keep then none
  else
    some ({ sink with size := sink.keep },
      ((content.drop (content.length - sink.keep.toNat)
          ++ content.drop sink.keep.toNat).take sink.keep.toNat))

/-- FileSink.Log: a no-op when the sink was closed; otherwise the
formatted record is appended to the file, its byte count added to
`size`, and `roll` runs exactly when the new size reaches `max`.
Individual write errors are ignored in the source (`n, _ := ... .Write`);
the model takes the successful write, `n` = the record's length. -/
def fileSinkLog (sink : FileSink) (content : List Char) (m : Msg) :
    Option (FileSink × List Char) :=
  if sink.out = false then some (sink, content)
  else if sink.size + ((formatRecord m).data.length : Int) ≥ sink.max then
    roll { sink with size := sink.size + ((formatRecord m).data.length : Int) }
      (content ++ (formatRecord m).data)
  else
    some ({ sink with size := sink.size + ((formatRecord m).data.length : Int) },
      content ++ (formatRecord m).data)

/-! ### Logger entry points (the two logger source files)

The entry points' control flow is modelled as the list of effects they
perform, in order.  `dispatch` stands for `l.log(lvl, body)` — building
the record and writing it to every attached sink under the lock;
`exitCall` stands for invoking the injected exit capability (`l.exit()`,
for the standard logger the function installed by `SetExit`);
`osExit` stands for a direct call of `os.Exit`. -/

inductive Effect where
  | dispatch (lvl : Nat) (body : String)
  | exitCall
  | osExit (code : Nat)
deriving DecidableEq

/-- Logger.Fatal (the instance method): gate on FATAL, dispatch, then
`l.exit()`.  The body has already been formatted by fmt.Sprint. -/
def loggerFatal (enabled : Nat) (body : String) : List Effect :=
  if enabled &&& FATAL ≠ FATAL then []
  else [Effect.dispatch FATAL body, Effect.exitCall]

/-- Logger.Fatalln: identical control flow to Logger.Fatal, with the
body formatted by fmt.Sprintln. -/
def loggerFatalln (enabled : Nat) (body : String) : List Effect :=
  if enabled &&& FATAL ≠ FATAL then []
  else [Effect.dispatch FATAL body, Effect.exitCall]

/-- Logger.Fatalf: identical control flow to Logger.Fatal, with the body
formatted by fmt.Sprintf. -/
def loggerFatalf (enabled : Nat) (body : String) : List Effect :=
  if enabled &&& FATAL ≠ FATAL then []
  else [Effect.dispatch FATAL body, Effect.exitCall]

/-- The package-level Fatal on the standard logger: gate on FATAL,
`std.log(FATAL, ...)`, then a direct `os.Exit(1)` — NOT `std.exit()`. -/
def stdFatal (enabled : Nat) (body : String) : List Effect :=
  if enabled &&& FATAL ≠ FATAL then []
  else [Effect.dispatch FATAL body, Effect.osExit 1]

/-- The package-level Fatalln: same control flow as the package-level
Fatal (direct `os.Exit(1)`). -/
def stdFatalln (enabled : Nat) (body : String) : List Effect :=
  if enabled &&& FATAL ≠ FATAL then []
  else [Effect.dispatch FATAL body, Effect.osExit 1]

/-- The package-level Fatalf: same control flow as the package-level
Fatal (direct `os.Exit(1)`). -/
def stdFatalf (enabled : Nat) (body : String) : List Effect :=
  if enabled &&& FATAL ≠ FATAL then []
  else [Effect.dispatch FATAL body, Effect.osExit 1]

/-! ### The level gate shared by every entry point

Each entry point (per level, per call convention, both the instance
methods and the package-level functions) starts with
`if enabled&L != L { return }` and only then builds the record and
dispatches it.  The record construction (time capture, caller lookup,
body formatting) happens after the gate, which the model expresses by
passing it as a thunk. -/

/-- A Sink is a consumer of messages; each sink either drops the record
or writes some bytes for it. -/
def dispatchSinks (sinks : List (Msg → Option String)) (m : Msg) :
    List (Option String) :=
  sinks.map (fun s => s m)

/-- The common shape of every gated entry point: on a closed gate return
immediately with no record built and no sink invoked (the empty
dispatch list); otherwise build the record and give it to every sink. -/
def logEntry (enabled lvl : Nat) (sinks : List (Msg → Option String))
    (mk : Unit → Msg) : List (Option String) :=
  if enabled &&& lvl ≠ lvl then [] else dispatchSinks sinks (mk ())

/-- DebugFunc: gate on DEBUG; only when the gate is open is `fn`
evaluated and its result logged (`std.log(DEBUG, fn())`). `mk` stands
for the record construction around the produced body. -/
def debugFunc (enabled : Nat) (sinks : List (Msg → Option String))
    (fn : Unit → String) (mk : String → Msg) : List (Option String) :=
  if enabled &&& DEBUG ≠ DEBUG then []
  else dispatchSinks sinks (mk (fn ()))

/-! ### Concrete sample values used by the witnesses -/

/-- A sample wall-clock time. -/
def sampleTime : GoTime :=
  { year := 2020, month := 1, day := 2, hour := 3, minute := 4, sec := 5,
    nano := 6789 }

/-- A sample message at NORMAL level. -/
def sampleMsg : Msg :=
  { level := 2, time := sampleTime, file := "main.go", line := 42,
    body := "hello" }

/-- A sample message whose level bit (1 << 6) is outside the six
canonical level bits of the uint8 Level type. -/
def msg64 : Msg :=
  { level := 64, time := sampleTime, file := "main.go", line := 7,
    body := "odd" }

/-- The empty body. -/
def emptyStr : String := ""

/-- A body without a trailing newline. -/
def abc : String := "abc"

/-- The same body with a trailing newline. -/
def abcNl : String := "abc\n"

/-- A sample FATAL body. -/
def boomBody : String := "boom"

/-- A sink at its rotation point: max 6, keep 2, 6 bytes on file. -/
def rollSinkW : FileSink := { max := 6, keep := 2, size := 6, out := true }

/-- The 6-byte file content for `rollSinkW`. -/
def rollFileW : List Char := ['a', 'b', 'c', 'd', 'e', 'f']

/-- A freshly constructed sink far from its rotation point. -/
def logSinkW : FileSink := { max := 1000, keep := 10, size := 0, out := true }

/-- A validated sink (keep 2, max 4) at its rotation point. -/
def rollSinkV : FileSink := { max := 4, keep := 2, size := 4, out := true }

/-- The 4-byte file content for `rollSinkV`. -/
def rollFileV : List Char := ['a', 'b', 'c', 'd']

/-! ### The claims -/

/-- C10: Level.String returns exactly the fixed 7-character tag for each
of the six canonical single-bit values and "[?????]" for every other
value (zero, combined masks such as ALL, out-of-range bits such as
1 << 6). -/
theorem levelString_canonical_tags :
    levelString DEBUG = "[DEBUG]" ∧ levelString NORMAL = "[_____]" ∧
    levelString WARNING = "[WARN!]" ∧ levelString ERROR = "[ERROR]" ∧
    levelString PANIC = "[PANIC]" ∧ levelString FATAL = "[FATAL]" ∧
    levelString 0 = "[?????]" ∧ levelString ALL = "[?????]" ∧
    levelString 64 = "[?????]" ∧
    ∀ lvl : Nat, lvl ≠ DEBUG → lvl ≠ NORMAL → lvl ≠ WARNING → lvl ≠ ERROR →
      lvl ≠ PANIC → lvl ≠ FATAL → levelString lvl = "[?????]" := by
  refine ⟨by decide, by decide, by decide, by decide, by decide, by decide,
    by decide, by decide, by decide, ?_⟩
  intro lvl h1 h2 h3 h4 h5 h6
  simp [levelString, h1, h2, h3, h4, h5, h6]

/-- C10 witness: 7 = DEBUG|NORMAL|WARNING is not canonical and renders
as "[?????]". -/
theorem levelString_canonical_tags_witness : levelString 7 = "[?????]" :=
  levelString_canonical_tags.2.2.2.2.2.2.2.2.2 7 (by decide) (by decide)
    (by decide) (by decide) (by decide) (by decide)

/-- C6: PrintMsg writes nothing for an empty body, appends exactly one
newline to a non-empty body whose last byte is not a newline, and writes
a newline-terminated body verbatim; in particular "abc" and a
newline-terminated "abc" both produce the newline-terminated "abc". -/
theorem printMsg_trailing_newline :
    printMsg emptyStr = emptyStr ∧ (printMsg emptyStr).length = 0 ∧
    (∀ body : String, body.data ≠ [] →
      (body.data.getLast? ≠ some '\n' → printMsg body = body ++ "\n") ∧
      (body.data.getLast? = some '\n' → printMsg body = body)) ∧
    printMsg abc = abcNl ∧ printMsg abcNl = abcNl := by
  refine ⟨by decide, by decide, ?_, by decide, by decide⟩
  intro body h
  constructor
  · intro hne
    unfold printMsg
    rw [if_neg h, if_pos hne]
  · intro he
    unfold printMsg
    rw [if_neg h, if_neg (not_not_intro he)]

/-- C6 witness: a concrete non-empty body without a trailing newline
gains exactly one. -/
theorem printMsg_trailing_newline_witness : printMsg abc = abc ++ "\n" :=
  (printMsg_trailing_newline.2.2.1 abc (by decide)).1 (by decide)

/-- C5: a Msg whose level has none of the six canonical bits is written,
with tag "[?????]", by both StdOutSink.Log and StdErrSink.Log;
StdOutSink drops a record exactly when its level intersects
WARNING|ERROR|PANIC|FATAL and StdErrSink exactly when it intersects
DEBUG|NORMAL. -/
theorem unknown_level_written_by_std_sinks :
    (∀ m : Msg, m.level &&& ALL = 0 →
      stdOutSinkLog m = some (formatRecord m) ∧
      stdErrSinkLog m = some (formatRecord m) ∧
      levelString m.level = "[?????]") ∧
    (∀ m : Msg,
      (stdOutSinkLog m = none ↔
        m.level &&& (WARNING ||| ERROR ||| PANIC ||| FATAL) > 0) ∧
      (stdErrSinkLog m = none ↔ m.level &&& (DEBUG ||| NORMAL) > 0)) := by
  constructor
  · intro m h
    have h63 : m.level &&& 63 = 0 := by
      have e : ALL = 63 := by decide
      rwa [e] at h
    have h60 : m.level &&& (WARNING ||| ERROR ||| PANIC ||| FATAL) = 0 := by
      have e2 : (WARNING ||| ERROR ||| PANIC ||| FATAL : Nat) = 63 &&& 60 := by
        decide
      rw [e2, ← Nat.land_assoc, h63]
      decide
    have h3 : m.level &&& (DEBUG ||| NORMAL) = 0 := by
      have e3 : (DEBUG ||| NORMAL : Nat) = 63 &&& 3 := by decide
      rw [e3, ← Nat.land_assoc, h63]
      decide
    have n1 : m.level ≠ DEBUG := by
      intro e; rw [e] at h63; exact absurd h63 (by decide)
    have n2 : m.level ≠ NORMAL := by
      intro e; rw [e] at h63; exact absurd h63 (by decide)
    have n3 : m.level ≠ WARNING := by
      intro e; rw [e] at h63; exact absurd h63 (by decide)
    have n4 : m.level ≠ ERROR := by
      intro e; rw [e] at h63; exact absurd h63 (by decide)
    have n5 : m.level ≠ PANIC := by
      intro e; rw [e] at h63; exact absurd h63 (by decide)
    have n6 : m.level ≠ FATAL := by
      intro e; rw [e] at h63; exact absurd h63 (by decide)
    refine ⟨?_, ?_, ?_⟩
    · simp [stdOutSinkLog, h60]
    · simp [stdErrSinkLog, h3]
    · simp [levelString, n1, n2, n3, n4, n5, n6]
  · intro m
    constructor
    · by_cases hc : m.level &&& (WARNING ||| ERROR ||| PANIC ||| FATAL) > 0 <;>
        simp [stdOutSinkLog, hc]
    · by_cases hc : m.level &&& (DEBUG ||| NORMAL) > 0 <;>
        simp [stdErrSinkLog, hc]

/-- C5 witness: the message with level bit 1 << 6 is written by the
stdout sink. -/
theorem unknown_level_written_by_std_sinks_witness :
    stdOutSinkLog msg64 = some (formatRecord msg64) :=
  (unknown_level_written_by_std_sinks.1 msg64 (by decide)).1

/-- C7: when a level's bit is not in the enabled mask the corresponding
entry point returns immediately: the dispatch list is empty (no sink
invoked, zero bytes everywhere), independent of the record-building
thunk, and DebugFunc's result is moreover independent of its function
argument, which it never evaluates. -/
theorem disabled_level_entry_is_noop :
    (∀ (enabled lvl : Nat) (sinks : List (Msg → Option String))
        (mk mk' : Unit → Msg),
      enabled &&& lvl ≠ lvl →
      logEntry enabled lvl sinks mk = [] ∧
      logEntry enabled lvl sinks mk = logEntry enabled lvl sinks mk') ∧
    (∀ (enabled : Nat) (sinks : List (Msg → Option String))
        (fn fn' : Unit → String) (mk : String → Msg),
      enabled &&& DEBUG ≠ DEBUG →
      debugFunc enabled sinks fn mk = [] ∧
      debugFunc enabled sinks fn mk = debugFunc enabled sinks fn' mk) := by
  constructor
  · intro enabled lvl sinks mk mk' h
    constructor <;> simp [logEntry, h]
  · intro enabled sinks fn fn' mk h
    constructor <;> simp [debugFunc, h]

/-- C7 witness: with only NORMAL enabled, a DEBUG entry point dispatches
nothing. -/
theorem disabled_level_entry_is_noop_witness :
    logEntry NORMAL DEBUG [stdOutSinkLog] (fun _ => sampleMsg) = [] :=
  (disabled_level_entry_is_noop.1 NORMAL DEBUG [stdOutSinkLog]
    (fun _ => sampleMsg) (fun _ => sampleMsg) (by decide)).1

/-- C1: the instance methods Logger.Fatal/Fatalln/Fatalf dispatch and
then invoke the injected exit action, but the package-level
Fatal/Fatalln/Fatalf on the standard logger dispatch and then call
os.Exit(1) directly, never invoking the exit action installed via
SetExit — contradicting SetExit's documented purpose. -/
theorem fatal_std_entries_bypass_exit :
    loggerFatal ALL boomBody = [Effect.dispatch FATAL boomBody, Effect.exitCall] ∧
    loggerFatalln ALL boomBody = [Effect.dispatch FATAL boomBody, Effect.exitCall] ∧
    loggerFatalf ALL boomBody = [Effect.dispatch FATAL boomBody, Effect.exitCall] ∧
    stdFatal ALL boomBody = [Effect.dispatch FATAL boomBody, Effect.osExit 1] ∧
    stdFatalln ALL boomBody = [Effect.dispatch FATAL boomBody, Effect.osExit 1] ∧
    stdFatalf ALL boomBody = [Effect.dispatch FATAL boomBody, Effect.osExit 1] ∧
    Effect.exitCall ∉ stdFatal ALL boomBody ∧
    Effect.exitCall ∉ stdFatalln ALL boomBody ∧
    Effect.exitCall ∉ stdFatalf ALL boomBody := by
  decide

/-- C3: NewFileSink returns an error (and no sink) exactly when keep < 0,
or max < 0, or keep > MaxInt64/2 (so keep+keep would overflow int64), or
2·keep > max; rejection happens before any filesystem access, leaving the
file untouched; in particular keep=60, max=100 is rejected. -/
theorem newFileSink_rejects_invalid_params :
    (∀ (fs : Option (List Char)) (max keep : Int),
      ((newFileSinkFS fs max keep).1.isOk = false ↔
        (keep < 0 ∨ max < 0 ∨ maxInt64 / 2 < keep ∨ keep + keep > max)) ∧
      ((keep < 0 ∨ max < 0 ∨ maxInt64 / 2 < keep ∨ keep + keep > max) →
        (newFileSinkFS fs max keep).2 = fs)) ∧
    (∀ fs : Option (List Char),
      (newFileSinkFS fs 100 60).1.isOk = false ∧
      (newFileSinkFS fs 100 60).2 = fs) := by
  have main : ∀ (fs : Option (List Char)) (max keep : Int),
      ((newFileSinkFS fs max keep).1.isOk = false ↔
        (keep < 0 ∨ max < 0 ∨ maxInt64 / 2 < keep ∨ keep + keep > max)) ∧
      ((keep < 0 ∨ max < 0 ∨ maxInt64 / 2 < keep ∨ keep + keep > max) →
        (newFileSinkFS fs max keep).2 = fs) := by
    intro fs max keep
    unfold newFileSinkFS newFileSinkValidate
    split_ifs with h1 h2 h3 h4 <;> simp [Except.isOk] <;> try tauto
  refine ⟨main, fun fs =>
    ⟨(main fs 100 60).1.mpr (Or.inr (Or.inr (Or.inr (by decide)))),
     (main fs 100 60).2 (Or.inr (Or.inr (Or.inr (by decide))))⟩⟩

/-- C3 witness: keep=60, max=100 over an existing one-byte file is
rejected and the file is untouched. -/
theorem newFileSink_rejects_invalid_params_witness :
    (newFileSinkFS (some ['a']) 100 60).1.isOk = false ∧
    (newFileSinkFS (some ['a']) 100 60).2 = some ['a'] :=
  ⟨(newFileSink_rejects_invalid_params.1 (some ['a']) 100 60).1.mpr
      (Or.inr (Or.inr (Or.inr (by decide)))),
   (newFileSink_rejects_invalid_params.1 (some ['a']) 100 60).2
      (Or.inr (Or.inr (Or.inr (by decide))))⟩

/-- C9: a successful NewFileSink over an existing file keeps its content
and appends exactly the 81-byte separator (80 '=' then a newline) at the
old end, setting size to the old length plus 81; a second back-to-back
construction therefore leaves both separators and all prior content. -/
theorem construction_appends_separator :
    ∀ (pre : List Char) (max keep : Int),
      newFileSinkValidate max keep = none →
      newFileSinkFS (some pre) max keep
        = (Except.ok
            { max := max, keep := keep, size := (pre.length : Int) + 81,
              out := true },
           some (pre ++ separator)) ∧
      separator = List.replicate 80 '=' ++ ['\n'] ∧
      separator.length = 81 ∧
      (newFileSinkFS (some (pre ++ separator)) max keep).2
        = some (pre ++ separator ++ separator) := by
  intro pre max keep hv
  have e : ((separator.length : Int)) = 81 := by decide
  refine ⟨?_, rfl, by decide, ?_⟩
  · simp [newFileSinkFS, hv, e]
  · simp [newFileSinkFS, hv]

/-- C9 witness: constructing over a 3-byte file with max=200, keep=40
appends the separator and records size 84. -/
theorem construction_appends_separator_witness :
    newFileSinkFS (some ['o', 'l', 'd']) 200 40
      = (Except.ok
          { max := 200, keep := 40, size := ((['o', 'l', 'd'] : List Char).length : Int) + 81,
            out := true },
         some (['o', 'l', 'd'] ++ separator)) :=
  (construction_appends_separator ['o', 'l', 'd'] 200 40 (by decide)).1

/-- C8: Log on a closed FileSink is a total no-op — same sink state (so
the size field is unchanged) and same file content, no panic; Close
marks the sink closed, and a second Close is total, returning
os.ErrInvalid from the nil handle rather than crashing. -/
theorem closed_sink_log_noop_close_idempotent :
    (∀ (sink : FileSink) (content : List Char) (m : Msg),
      sink.out = false → fileSinkLog sink content m = some (sink, content)) ∧
    (∀ sink : FileSink,
      (fileSinkClose sink).1.out = false ∧
      fileSinkClose (fileSinkClose sink).1
        = ((fileSinkClose sink).1, some errInvalid)) := by
  constructor
  · intro sink content m h
    simp [fileSinkLog, h]
  · intro sink
    exact ⟨rfl, rfl⟩

/-- C8 witness: logging to a concrete closed sink changes nothing. -/
theorem closed_sink_log_noop_close_idempotent_witness :
    fileSinkLog { max := 100, keep := 40, size := 7, out := false } [] sampleMsg
      = some ({ max := 100, keep := 40, size := 7, out := false }, []) :=
  closed_sink_log_noop_close_idempotent.1
    { max := 100, keep := 40, size := 7, out := false } [] sampleMsg rfl

/-- C2: for an open FileSink whose size equals the file length, with
size ≥ max and max ≥ 2·keep ≥ 0, roll leaves the file holding exactly
the last keep bytes of the pre-rotation content (length keep) and sets
size to keep; and Log rolls exactly when, after appending the formatted
record, size ≥ max. -/
theorem roll_keeps_tail_and_log_rolls_iff_threshold :
    (∀ (sink : FileSink) (content : List Char),
      sink.out = true →
      sink.size = (content.length : Int) →
      sink.size ≥ sink.max →
      sink.max ≥ 2 * sink.keep →
      0 ≤ sink.keep →
      roll sink content
          = some ({ sink with size := sink.keep },
              content.drop (content.length - sink.keep.toNat)) ∧
      (content.drop (content.length - sink.keep.toNat)).length
          = sink.keep.toNat ∧
      ((content.drop (content.length - sink.keep.toNat)).length : Int)
          = sink.keep) ∧
    (∀ (sink : FileSink) (content : List Char) (m : Msg),
      sink.out = true →
      (sink.size + ((formatRecord m).data.length : Int) ≥ sink.max →
        fileSinkLog sink content m
          = roll
              { sink with
                size := sink.size + ((formatRecord m).data.length : Int) }
              (content ++ (formatRecord m).data)) ∧
      (sink.size + ((formatRecord m).data.length : Int) < sink.max →
        fileSinkLog sink content m
          = some
              ({ sink with
                 size := sink.size + ((formatRecord m).data.length : Int) },
               content ++ (formatRecord m).data))) := by
  constructor
  · intro sink content hout hsize hmax hkeep hk0
    have hkN : sink.keep.toNat ≤ content.length := by omega
    have hguard : ¬(sink.keep < 0 ∨ (content.length : Int) < sink.keep) := by
      omega
    have htail : (content.drop (content.length - sink.keep.toNat)).length
        = sink.keep.toNat := by
      rw [List.length_drop]; omega
    refine ⟨?_, htail, by rw [htail]; exact Int.toNat_of_nonneg hk0⟩
    unfold roll
    rw [if_neg hguard, List.take_left' htail]
  · intro sink content m hout
    constructor
    · intro h
      unfold fileSinkLog
      rw [if_neg (by simp [hout]), if_pos h]
    · intro h
      unfold fileSinkLog
      rw [if_neg (by simp [hout]), if_neg (not_le.mpr h)]

/-- C2 witness: rolling the concrete 6-byte file keeps its last 2 bytes,
and logging a record far below max appends without rolling. -/
theorem roll_keeps_tail_and_log_rolls_iff_threshold_witness :
    roll rollSinkW rollFileW
        = some ({ rollSinkW with size := rollSinkW.keep },
            rollFileW.drop (rollFileW.length - rollSinkW.keep.toNat)) ∧
    fileSinkLog logSinkW [] sampleMsg
        = some
            ({ logSinkW with
               size := logSinkW.size + ((formatRecord sampleMsg).data.length : Int) },
             [] ++ (formatRecord sampleMsg).data) :=
  ⟨(roll_keeps_tail_and_log_rolls_iff_threshold.1 rollSinkW rollFileW rfl
      (by decide) (by decide) (by decide) (by decide)).1,
   (roll_keeps_tail_and_log_rolls_iff_threshold.2 logSinkW [] sampleMsg
      rfl).2 (by decide)⟩

/-- C4 counterexample: max=0, keep=0 passes NewFileSink's validation
(0+0 > 0 is false), yet after the rotation that any Log then triggers
the size field (0) still satisfies the trigger condition size ≥ max
(0 ≥ 0) — the claim's "the rotation trigger condition size ≥ max is
false" fails for this validated sink. -/
theorem rotation_retrigger_counterexample :
    newFileSinkValidate 0 0 = none ∧
    newFileSinkFS none 0 0
      = (Except.ok { max := 0, keep := 0, size := 81, out := true },
         some separator) ∧
    roll { max := 0, keep := 0, size := 81, out := true } separator
      = some ({ max := 0, keep := 0, size := 0, out := true }, []) ∧
    ({ max := 0, keep := 0, size := 0, out := true } : FileSink).size
      ≥ ({ max := 0, keep := 0, size := 0, out := true } : FileSink).max := by
  exact ⟨rfl, rfl, by decide, by decide⟩

/-- C4 amended: for a FileSink that passed construction validation and
has max > 0, a completed rotation leaves size = keep with the trigger
condition size ≥ max false, so it cannot immediately re-trigger; only
the degenerate validated case max = 0 (forcing keep = 0) escapes. -/
theorem rotation_no_retrigger_amended :
    ∀ (sink : FileSink) (content : List Char) (r : FileSink × List Char),
      newFileSinkValidate sink.max sink.keep = none →
      0 < sink.max →
      roll sink content = some r →
      r.1.size = sink.keep ∧ r.1.max = sink.max ∧ ¬ r.1.size ≥ r.1.max := by
  intro sink content r hv hpos hr
  have hbounds : 0 ≤ sink.keep ∧ sink.keep + sink.keep ≤ sink.max := by
    unfold newFileSinkValidate at hv
    split_ifs at hv with h1 h2 h3 h4
    constructor <;> omega
  unfold roll at hr
  by_cases hg : sink.keep < 0 ∨ (content.length : Int) < sink.keep
  · rw [if_pos hg] at hr
    exact absurd hr (by simp)
  · rw [if_neg hg] at hr
    obtain rfl := Option.some.inj hr
    refine ⟨rfl, rfl, ?_⟩
    show ¬ sink.keep ≥ sink.max
    omega

/-- C4 amended witness: rolling a validated keep=2, max=4 sink leaves
size 2 strictly below max. -/
theorem rotation_no_retrigger_amended_witness :
    ¬ (({ max := 4, keep := 2, size := 2, out := true } : FileSink).size
        ≥ ({ max := 4, keep := 2, size := 2, out := true } : FileSink).max) :=
  (rotation_no_retrigger_amended rollSinkV rollFileV
    ({ max := 4, keep := 2, size := 2, out := true }, ['c', 'd'])
    (by decide) (by decide) (by decide)).2.2

end LogModel
